import Mathlib

/-!
Shallow embedding of the QuicP2P signaling rendezvous protocol
(repository BrownNPC/QuicP2P).

Sources embedded here:
- src/signaling/messages.go            (message kinds, constructors)
- src/signaling/websocketSignalingServer.go  (mux registration, join and host
  session handlers, isUnique) -- referred to below as "the named file"
- src/unnamed/part_001                 (a second copy of the same server file
  present in the repository; it differs from the named file in the host
  loop's rate-limiter denial branch and in the guest-to-host candidate
  relay) -- referred to below as "the alt file"
- src/unnamed/part_000                 (host signaling client, Listen loop)
- src/unnamed/part_002                 (GenerateUniqueRoomID)
- src/unnamed/part_003 and part_004    (RoomId / GuestID type declarations)

Modelling conventions: sessions are single tasks; each ReadMsg outcome, each
rate-limiter Allow() decision and each fallible write outcome is an explicit
oracle input; a session handler is a pure function from those inputs to the
trace of externally visible effects (writes issued, closes, registry
operations) together with the final registry state.  uuid.UUID values and
connection handles are modelled as naturals, room ids as strings.  The
keepalive ping goroutines only ever terminate themselves and touch no
registry, so they contribute no events and are not modelled.
-/

namespace QuicP2P

/-- type RoomId string (src/unnamed/part_003). -/
abbrev RoomId := String

/-- type GuestID = uuid.UUID (src/unnamed/part_003); opaque token, modelled
as a natural number. -/
abbrev GuestID := Nat

/-- Websocket connection handles, modelled as opaque naturals. -/
abbrev ConnId := Nat

/-- MsgType from src/signaling/messages.go (iota enumeration). -/
inductive MsgType where
  | Invalid
  | RoomCreated
  | GuestAuth
  | GuestJoined
  | HostAuth
  | IceCandidate
  | GuestDisconnected
  | KickGuest
  deriving DecidableEq, Repr

/-- The stringer-generated String() method for MsgType, used in the join
handler's policy-violation close reason. -/
def MsgType.str : MsgType → String
  | .Invalid => "Invalid"
  | .RoomCreated => "RoomCreated"
  | .GuestAuth => "GuestAuth"
  | .GuestJoined => "GuestJoined"
  | .HostAuth => "HostAuth"
  | .IceCandidate => "IceCandidate"
  | .GuestDisconnected => "GuestDisconnected"
  | .KickGuest => "KickGuest"

/-- struct Msg from src/signaling/messages.go: a tagged record with a fixed
superset of fields; unused fields carry zero values. -/
structure Msg where
  type : MsgType := .Invalid
  roomId : RoomId := ""
  guestId : GuestID := 0
  ufrag : String := ""
  pwd : String := ""
  candidate : String := ""
  reason : String := ""
  deriving DecidableEq, Repr

/-- msgRoomCreated (messages.go): Msg with Type RoomCreated and RoomId. -/
def msgRoomCreated (roomId : RoomId) : Msg :=
  { type := .RoomCreated, roomId := roomId }

/-- MsgGuestAuth (messages.go): Msg with Type GuestAuth, Ufrag, Pwd. -/
def MsgGuestAuth (ufrag pwd : String) : Msg :=
  { type := .GuestAuth, ufrag := ufrag, pwd := pwd }

/-- msgGuestJoined (messages.go): Msg with Type GuestJoined, GuestId, Ufrag,
Pwd. -/
def msgGuestJoined (id : GuestID) (ufrag pwd : String) : Msg :=
  { type := .GuestJoined, guestId := id, ufrag := ufrag, pwd := pwd }

/-- MsgHostAuth (messages.go): Msg with Type HostAuth, GuestId, Ufrag, Pwd. -/
def MsgHostAuth (guestId : GuestID) (ufrag pwd : String) : Msg :=
  { type := .HostAuth, guestId := guestId, ufrag := ufrag, pwd := pwd }

/-- msgIceCandidate (messages.go): Msg with Type IceCandidate, GuestId,
Candidate. -/
def msgIceCandidate (guestId : GuestID) (candidate : String) : Msg :=
  { type := .IceCandidate, guestId := guestId, candidate := candidate }

/-- msgGuestDisconnected (messages.go): Msg with Type GuestDisconnected and
GuestId. -/
def msgGuestDisconnected (guestId : GuestID) : Msg :=
  { type := .GuestDisconnected, guestId := guestId }

/-- MsgKickGuest (messages.go): Msg with Type KickGuest, GuestId, Reason. -/
def MsgKickGuest (guestId : GuestID) (reason : String) : Msg :=
  { type := .KickGuest, guestId := guestId, reason := reason }

/-- websocket close status codes used by the handlers (coder/websocket). -/
inductive CloseStatus where
  | StatusGoingAway
  | StatusPolicyViolation
  | StatusInvalidFramePayloadData
  | StatusInternalError
  deriving DecidableEq, Repr

/-- hashtriemap.HashTrieMap, modelled as an association list; the session
handlers use only Load, Store and Delete. -/
abbrev Registry (α β : Type) := List (α × β)

/-- HashTrieMap.Load: first binding of the key, if any. -/
def Registry.load [DecidableEq α] : Registry α β → α → Option β
  | [], _ => none
  | (k, v) :: rest, k2 => if k = k2 then some v else Registry.load rest k2

/-- HashTrieMap.Delete: remove all bindings of the key. -/
def Registry.delete [DecidableEq α] : Registry α β → α → Registry α β
  | [], _ => []
  | (k, v) :: rest, k2 =>
      if k = k2 then Registry.delete rest k2
      else (k, v) :: Registry.delete rest k2

/-- HashTrieMap.Store: overwrite the binding of the key. -/
def Registry.store [DecidableEq α] (m : Registry α β) (k : α) (v : β) :
    Registry α β :=
  (k, v) :: m.delete k

/-- The mutable state of WebsocketSignalingServer: the RoomId-to-host-conn
map `hosts` and the GuestID-to-guest-conn map `guests`
(websocketSignalingServer.go lines 22-30). -/
structure WsState where
  hosts : Registry RoomId ConnId
  guests : Registry GuestID ConnId
  deriving DecidableEq, Repr

/-- isUnique (websocketSignalingServer.go lines 212-217): false iff a host
with this roomId exists. -/
def WsState.isUnique (s : WsState) (roomId : RoomId) : Bool :=
  (s.hosts.load roomId).isNone

/-- Tags for the two HTTP handler functions of WebsocketSignalingServer:
`hostH` is the method `host` (the host session handler), `joinH` is the
method `join` (the guest session handler). -/
inductive Handler where
  | hostH
  | joinH
  deriving DecidableEq, Repr

/-- The request multiplexer as configured by NewWebsocketSignalingServer
(websocketSignalingServer.go lines 41-43 and part_001 lines 40-42):

  s.Mux.HandleFunc("POST /host", s.host)
  s.Mux.HandleFunc("POST /join/{roomId}", s.host)

Both patterns are registered with the method `host`; the method `join` is
never registered.  `{roomId}` matches exactly one path segment. -/
def muxDispatch (method : String) (path : List String) : Option Handler :=
  if method = "POST" then
    match path with
    | ["host"] => some .hostH
    | ["join", _] => some .hostH
    | _ => none
  else none

/-- Outcome of one ReadMsg call (messages.go lines 218-238): an error
(read timeout, transport failure, non-binary frame, or decode failure), or a
decoded Msg. -/
inductive ReadResult where
  | err
  | ok (m : Msg)
  deriving DecidableEq, Repr

/-- Externally visible effects of a server session handler, in program
order.  `wrote c m` is a WriteMsg of `m` issued to connection `c` (the
handlers ignore write errors everywhere except for the GuestJoined relay,
which is modelled by an explicit oracle); `closed` is a Close with a status
and reason; the registry constructors record Store and Delete calls on the
shared maps. -/
inductive Event where
  | wrote (target : ConnId) (m : Msg)
  | closed (target : ConnId) (status : CloseStatus) (reason : String)
  | storedGuest (g : GuestID)
  | deletedGuest (g : GuestID)
  | storedHost (r : RoomId)
  | deletedHost (r : RoomId)
  deriving DecidableEq, Repr

/-- Connection targeted by an event, if any. -/
def eventTarget : Event → Option ConnId
  | .wrote c _ => some c
  | .closed c _ _ => some c
  | _ => none

/-- Count of occurrences of one event in a trace. -/
def countEv (e : Event) (l : List Event) : Nat :=
  (l.filter (fun x => decide (x = e))).length

/-- The guest receive loop of `join` in the named file
(websocketSignalingServer.go lines 115-128).  Each iteration consumes one
rate-limiter Allow() decision and one ReadMsg outcome: on limiter denial the
guest connection is closed with a policy violation and the loop exits; on a
read error the loop exits; an IceCandidate message is forwarded to the host
verbatim (`WriteMsg(hConn, msg, timeout)`), any other message is ignored. -/
def joinLoop (hc gc : ConnId) : List (Bool × ReadResult) → List Event
  | [] => []
  | (allow, r) :: rest =>
    if !allow then [.closed gc .StatusPolicyViolation "rate limit"]
    else
      match r with
      | .err => []
      | .ok m =>
        if m.type = .IceCandidate then .wrote hc m :: joinLoop hc gc rest
        else joinLoop hc gc rest

/-- The guest receive loop of `join` in the alt file (part_001 lines
117-132): identical except that the forward is
`msgIceCandidate(hConn, timeout, guestId, msg.Candidate)` -- the relayed
message is rebuilt with the server-assigned guest id `gid`. -/
def joinLoopAlt (hc gc : ConnId) (gid : GuestID) :
    List (Bool × ReadResult) → List Event
  | [] => []
  | (allow, r) :: rest =>
    if !allow then [.closed gc .StatusPolicyViolation "rate limit"]
    else
      match r with
      | .err => []
      | .ok m =>
        if m.type = .IceCandidate then
          .wrote hc (msgIceCandidate gid m.candidate) :: joinLoopAlt hc gc gid rest
        else joinLoopAlt hc gc gid rest

/-- The guest session handler `join` (websocketSignalingServer.go lines
48-129).  Inputs: server state, the roomId from the request path, the
accepted guest connection `gc`, the freshly generated uuid `gid`, the
outcome of the first ReadMsg, whether the msgGuestJoined relay write
succeeded, and the receive-loop iterations.  Output: the event trace and
the final server state.  Paths, in source order:
- room not registered: refuse silently;
- first read fails: close with StatusInvalidFramePayloadData;
- first message is not GuestAuth: close with StatusPolicyViolation;
- msgGuestJoined write fails: close with StatusInternalError;
- otherwise Store the guest, run the loop, then the deferred calls run in
  LIFO order: msgGuestDisconnected to the host first, then the registry
  Delete.  (The outer `defer gConn.CloseNow()` adds no status close and is
  omitted; the ping goroutine only terminates itself and is omitted.) -/
def join (st : WsState) (roomId : RoomId) (gc : ConnId) (gid : GuestID)
    (firstRead : ReadResult) (guestJoinedOk : Bool)
    (iters : List (Bool × ReadResult)) : List Event × WsState :=
  match st.hosts.load roomId with
  | none => ([], st)
  | some hc =>
    match firstRead with
    | .err => ([.closed gc .StatusInvalidFramePayloadData "failed to read message"], st)
    | .ok authMsg =>
      if authMsg.type ≠ .GuestAuth then
        ([.closed gc .StatusPolicyViolation
            ("Expected GuestAuth message. Got " ++ authMsg.type.str)], st)
      else if !guestJoinedOk then
        ([.wrote hc (msgGuestJoined gid authMsg.ufrag authMsg.pwd),
          .closed gc .StatusInternalError "failed to write message"], st)
      else
        ((.wrote hc (msgGuestJoined gid authMsg.ufrag authMsg.pwd)
            :: .storedGuest gid
            :: joinLoop hc gc iters)
          ++ [.wrote hc (msgGuestDisconnected gid), .deletedGuest gid],
         { st with guests := (st.guests.store gid gc).delete gid })

/-- One iteration's oracle inputs for the host receive loop: the
rate-limiter Allow() decision and the ReadMsg outcome. -/
structure HostIter where
  allow : Bool
  read : ReadResult
  deriving DecidableEq, Repr

/-- The state of a golang.org/x/time/rate token-bucket limiter as the host
handler uses it: the refill limit (events per second; always a whole number
here) and the burst size.  Constructed with rate.NewLimiter(5, 20) and
updated by SetLimit / SetBurst. -/
structure Limiter where
  limit : Nat
  burst : Nat
  deriving DecidableEq, Repr

/-- The host receive loop of the named file (websocketSignalingServer.go
lines 177-208).  Returns the event trace together with the final
connectedGuests list and limiter setting.  Behaviour per iteration:
- `if !lim.Allow() { }` -- the denial branch is EMPTY in this file (lines
  179-181); the Allow() result is consumed but has no effect and execution
  falls through to the read;
- a read error breaks out of the loop;
- HostAuth: look up msg.GuestId in the guest registry; if absent, continue;
  otherwise append the id to connectedGuests, SetLimit(len*5),
  SetBurst(int(lim.Limit())*2), and relay the raw message to the guest;
- IceCandidate: same lookup, relay the raw message, no registry update;
- any other type: ignored. -/
def hostLoop (st : WsState) (hc : ConnId) :
    List GuestID → Limiter → List HostIter →
    List Event × List GuestID × Limiter
  | connected, lim, [] => ([], connected, lim)
  | connected, lim, it :: rest =>
    match it.read with
    | .err => ([], connected, lim)
    | .ok m =>
      if m.type = .HostAuth then
        match st.guests.load m.guestId with
        | none => hostLoop st hc connected lim rest
        | some gc =>
          let connected2 := connected ++ [m.guestId]
          let lim2 : Limiter :=
            ⟨connected2.length * 5, connected2.length * 5 * 2⟩
          let r := hostLoop st hc connected2 lim2 rest
          (.wrote gc m :: r.1, r.2)
      else if m.type = .IceCandidate then
        match st.guests.load m.guestId with
        | none => hostLoop st hc connected lim rest
        | some gc =>
          let r := hostLoop st hc connected lim rest
          (.wrote gc m :: r.1, r.2)
      else hostLoop st hc connected lim rest

/-- The host receive loop of the alt file (part_001 lines 182-215).  It
differs from `hostLoop` in two places: a limiter denial closes the host
connection with StatusPolicyViolation "rate limit" and exits (lines
184-187), and the IceCandidate relay is rebuilt as
`msgIceCandidate(gConn, timeout, msg.GuestId, msg.Candidate)` (line 213). -/
def hostLoopAlt (st : WsState) (hc : ConnId) :
    List GuestID → Limiter → List HostIter →
    List Event × List GuestID × Limiter
  | connected, lim, [] => ([], connected, lim)
  | connected, lim, it :: rest =>
    if !it.allow then
      ([.closed hc .StatusPolicyViolation "rate limit"], connected, lim)
    else
      match it.read with
      | .err => ([], connected, lim)
      | .ok m =>
        if m.type = .HostAuth then
          match st.guests.load m.guestId with
          | none => hostLoopAlt st hc connected lim rest
          | some gc =>
            let connected2 := connected ++ [m.guestId]
            let lim2 : Limiter :=
              ⟨connected2.length * 5, connected2.length * 5 * 2⟩
            let r := hostLoopAlt st hc connected2 lim2 rest
            (.wrote gc m :: r.1, r.2)
        else if m.type = .IceCandidate then
          match st.guests.load m.guestId with
          | none => hostLoopAlt st hc connected lim rest
          | some gc =>
            let r := hostLoopAlt st hc connected lim rest
            (.wrote gc (msgIceCandidate m.guestId m.candidate) :: r.1, r.2)
        else hostLoopAlt st hc connected lim rest

/-- The deferred teardown of the host handler (websocketSignalingServer.go
lines 167-176, identical in part_001 lines 172-181): for each recorded
guest id, in list order, load its connection from the guest registry; if
still present, issue MsgKickGuest with reason "Host is offline." and close
the connection with StatusGoingAway "Host is offline". -/
def kickConnected (st : WsState) : List GuestID → List Event
  | [] => []
  | g :: rest =>
    match st.guests.load g with
    | none => kickConnected st rest
    | some gc =>
      .wrote gc (MsgKickGuest g "Host is offline.")
        :: .closed gc .StatusGoingAway "Host is offline"
        :: kickConnected st rest

/-- GenerateUniqueRoomID (src/unnamed/part_002 lines 13-19): draw candidate
ids from the SixCharRoomID stream until one satisfies the supplied
uniqueness predicate.  The Go loop is unbounded; the finite draw list is
its termination oracle, and `none` marks the modelling artefact of the
list running out before a unique id appears. -/
def GenerateUniqueRoomID (isUnique : RoomId → Bool) :
    List RoomId → Option RoomId
  | [] => none
  | id :: rest => if isUnique id then some id else GenerateUniqueRoomID isUnique rest

/-- The host session handler `host` (websocketSignalingServer.go lines
132-209) after RoomId allocation.  Inputs: server state, the accepted host
connection, the allocated roomId, whether the msgRoomCreated write
succeeded, and the receive-loop iterations.  Paths, in source order:
- Store roomId; if the msgRoomCreated write fails, close with
  StatusInternalError and return -- NOTE the `defer s.hosts.Delete(roomId)`
  on line 152 is only registered after this return, so on this path the
  roomId is never deleted from the registry;
- otherwise run the receive loop; when it exits the deferred calls run in
  LIFO order: the kick loop over connectedGuests first, then the registry
  Delete of the roomId. -/
def hostWithRoom (st : WsState) (hc : ConnId) (roomId : RoomId)
    (roomCreatedOk : Bool) (iters : List HostIter) : List Event × WsState :=
  let st1 : WsState := { st with hosts := st.hosts.store roomId hc }
  if !roomCreatedOk then
    ([.storedHost roomId, .wrote hc (msgRoomCreated roomId),
      .closed hc .StatusInternalError "Failed to write RoomCreated message"],
     st1)
  else
    (([.storedHost roomId, .wrote hc (msgRoomCreated roomId)]
        ++ (hostLoop st1 hc [] ⟨5, 20⟩ iters).1
        ++ kickConnected st1 (hostLoop st1 hc [] ⟨5, 20⟩ iters).2.1
        ++ [.deletedHost roomId]),
     { st1 with hosts := st1.hosts.delete roomId })

/-- The full host session handler: allocate the roomId with
GenerateUniqueRoomID over the server's isUnique (websocketSignalingServer.go
line 141), then run `hostWithRoom`.  `none` only when the draw list is
exhausted (a modelling artefact, see GenerateUniqueRoomID). -/
def host (st : WsState) (hc : ConnId) (draws : List RoomId)
    (roomCreatedOk : Bool) (iters : List HostIter) :
    Option (List Event × WsState) :=
  (GenerateUniqueRoomID st.isUnique draws).map
    (fun roomId => hostWithRoom st hc roomId roomCreatedOk iters)

/-- iceConn from src/unnamed/part_000 lines 20-23: a pair of an *ice.Conn
(nil until a dial succeeds, modelled as an Option) and an *ice.Agent
(modelled as an opaque handle). -/
structure IceConnM where
  conn : Option ConnId
  agent : Nat
  deriving DecidableEq, Repr

/-- Outcome of one ReadMsg call in the host signaling client's Listen loop
(part_000 lines 81-90).  `timeoutErr` is an error for which
errors.Is(err, context.DeadlineExceeded) holds; `readErr` is any other
ReadMsg error (transport failure, non-binary frame, decode failure).  For
a decoded message, `agentOk` is an oracle for whether
ice.NewAgentWithOptions and SetRemoteCredentials succeed; it is consulted
only when the message is GuestJoined. -/
inductive ClientRead where
  | timeoutErr
  | readErr
  | ok (m : Msg) (agentOk : Bool)
  deriving DecidableEq, Repr

/-- Externally visible effects of the client's Listen loop. -/
inductive ClientEvent where
  | loggedUnmarshalError
  | exitedLoop
  | sentHostAuth (g : GuestID)
  | storedAgent (g : GuestID)
  | dialStarted (g : GuestID)
  | candidateApplied (g : GuestID)
  | candidateDropped (g : GuestID)
  | closedIceConn (g : GuestID)
  | removedGuest (g : GuestID)
  | sentKickGuest (g : GuestID)
  | connectedCallback (g : GuestID)
  deriving DecidableEq, Repr

/-- One iteration of signalingClientHost.Listen (part_000 lines 79-168).
`fresh` is the handle of the agent created by this iteration if it creates
one.  Returns the new guest map, the events, and whether the loop
continues.  Branches, in source order:
- ReadMsg error that is NOT context.DeadlineExceeded: log "Failed to
  unmarshal message" and CONTINUE the loop (lines 83-87);
- ReadMsg error that IS DeadlineExceeded: log and return (lines 88-89);
- GuestJoined: create the agent (failure of NewAgentWithOptions or
  SetRemoteCredentials returns from Listen), send HostAuth asynchronously,
  Store the guest with a nil *ice.Conn, and start the dial goroutine
  (modelled separately by dialComplete);
- IceCandidate: look up the agent; drop if absent, else apply;
- GuestDisconnected: LoadAndDelete; if it existed, Close the stored conn
  only when it is non-nil (lines 159-166);
- other types: ignored. -/
def listenStep (st : Registry GuestID IceConnM) (fresh : Nat) :
    ClientRead → Registry GuestID IceConnM × List ClientEvent × Bool
  | .timeoutErr => (st, [.exitedLoop], false)
  | .readErr => (st, [.loggedUnmarshalError], true)
  | .ok m agentOk =>
    match m.type with
    | .GuestJoined =>
      if !agentOk then (st, [.exitedLoop], false)
      else
        (st.store m.guestId ⟨none, fresh⟩,
         [.sentHostAuth m.guestId, .storedAgent m.guestId,
          .dialStarted m.guestId], true)
    | .IceCandidate =>
      match st.load m.guestId with
      | none => (st, [.candidateDropped m.guestId], true)
      | some _ => (st, [.candidateApplied m.guestId], true)
    | .GuestDisconnected =>
      match st.load m.guestId with
      | none => (st, [], true)
      | some ic =>
        (st.delete m.guestId,
         match ic.conn with
         | none => [.removedGuest m.guestId]
         | some _ => [.closedIceConn m.guestId, .removedGuest m.guestId],
         true)
    | _ => (st, [], true)

/-- signalingClientHost.Listen (part_000 lines 76-169) as a fold of
listenStep over the sequence of ReadMsg outcomes, allocating a fresh agent
handle per iteration. -/
def Listen (st : Registry GuestID IceConnM) (fresh : Nat) :
    List ClientRead → Registry GuestID IceConnM × List ClientEvent
  | [] => (st, [])
  | r :: rest =>
    let s := listenStep st fresh r
    if s.2.2 then
      let t := Listen s.1 (fresh + 1) rest
      (t.1, s.2.1 ++ t.2)
    else (s.1, s.2.1)

/-- Completion of the dial goroutine spawned by the GuestJoined branch
(part_000 lines 128-143): on failure, send KickGuest "Connection failed"
and Delete the guest's entry; on success, Store the established conn with
the goroutine's own agent handle and invoke the connection callback. -/
def dialComplete (st : Registry GuestID IceConnM) (g : GuestID)
    (agent : Nat) : Option ConnId → Registry GuestID IceConnM × List ClientEvent
  | none => (st.delete g, [.sentKickGuest g])
  | some c => (st.store g ⟨some c, agent⟩, [.connectedCallback g])

/-! Registry lemmas. -/

theorem Registry.load_delete_self [DecidableEq α] (m : Registry α β) (k : α) :
    (m.delete k).load k = none := by
  induction m with
  | nil => rfl
  | cons p rest ih =>
    obtain ⟨k1, v⟩ := p
    by_cases h : k1 = k
    · simpa [Registry.delete, h] using ih
    · simpa [Registry.delete, Registry.load, h] using ih

theorem Registry.load_store_self [DecidableEq α] (m : Registry α β) (k : α)
    (v : β) : (m.store k v).load k = some v := by
  simp [Registry.store, Registry.load]

/-! Trace-counting lemmas. -/

theorem countEv_nil (e : Event) : countEv e [] = 0 := rfl

theorem countEv_cons (e a : Event) (l : List Event) :
    countEv e (a :: l) = (if a = e then 1 else 0) + countEv e l := by
  by_cases h : a = e
  · simp [countEv, List.filter_cons, h]
    omega
  · simp [countEv, List.filter_cons, h]

theorem countEv_append (e : Event) (l1 l2 : List Event) :
    countEv e (l1 ++ l2) = countEv e l1 + countEv e l2 := by
  simp [countEv, List.filter_append]

theorem countEv_eq_zero_of_not_mem (e : Event) (l : List Event) (h : e ∉ l) :
    countEv e l = 0 := by
  induction l with
  | nil => rfl
  | cons a rest ih =>
    rw [countEv_cons]
    have ha : a ≠ e := fun hae => h (hae ▸ List.mem_cons_self a rest)
    have := ih (fun he => h (List.mem_cons_of_mem a he))
    simp [ha, this]

/-! GenerateUniqueRoomID returns only ids satisfying the predicate. -/

theorem GenerateUniqueRoomID_spec (isUnique : RoomId → Bool)
    (draws : List RoomId) (r : RoomId)
    (h : GenerateUniqueRoomID isUnique draws = some r) : isUnique r = true := by
  induction draws with
  | nil => simp [GenerateUniqueRoomID] at h
  | cons d rest ih =>
    by_cases hd : isUnique d = true
    · rw [GenerateUniqueRoomID, if_pos hd] at h
      cases h
      exact hd
    · rw [GenerateUniqueRoomID, if_neg hd] at h
      exact ih h

/-! The host handler's event traces contain no guest-registry stores. -/

theorem storedGuest_notin_hostLoop (st : WsState) (hc : ConnId)
    (g : GuestID) :
    ∀ (iters : List HostIter) (connected : List GuestID) (lim : Limiter),
      Event.storedGuest g ∉ (hostLoop st hc connected lim iters).1 := by
  intro iters
  induction iters with
  | nil => intro c l; simp [hostLoop]
  | cons it rest ih =>
    intro connected lim
    obtain ⟨allow, r⟩ := it
    cases r with
    | err => simp [hostLoop]
    | ok m =>
      by_cases h1 : m.type = MsgType.HostAuth
      · cases hl : st.guests.load m.guestId with
        | none => simpa [hostLoop, h1, hl] using ih connected lim
        | some gc => simpa [hostLoop, h1, hl] using ih _ _
      · by_cases h2 : m.type = MsgType.IceCandidate
        · cases hl : st.guests.load m.guestId with
          | none => simpa [hostLoop, h1, h2, hl] using ih connected lim
          | some gc => simpa [hostLoop, h1, h2, hl] using ih connected lim
        · simpa [hostLoop, h1, h2] using ih connected lim

theorem storedGuest_notin_kickConnected (st : WsState) (g : GuestID)
    (l : List GuestID) : Event.storedGuest g ∉ kickConnected st l := by
  induction l with
  | nil => simp [kickConnected]
  | cons g0 rest ih =>
    cases hl : st.guests.load g0 with
    | none => simpa [kickConnected, hl] using ih
    | some gc => simpa [kickConnected, hl] using ih

/-- Claim C1: the request multiplexer is claimed to dispatch POST /host to
the host handler and POST /join/(roomId) to the guest join handler, so that
a join request for a registered room yields an accepted guest session.  In
the code both routes are registered with the host handler (the method
`join` is never registered), so a join request runs the host handler, which
allocates a fresh room and never stores any guest in the guest registry.
This contradicts the handlers' own doc comments ("POST /join/(roomId)"
above `join`) and the spec; the claim is the intent, the registration a
slip. -/
theorem c1_join_route_runs_host_handler :
    muxDispatch "POST" ["join", "AB12CD"] = some Handler.hostH ∧
    Handler.hostH ≠ Handler.joinH ∧
    ∀ (st : WsState) (hc : ConnId) (roomId : RoomId) (roomCreatedOk : Bool)
      (iters : List HostIter) (g : GuestID),
      Event.storedGuest g ∉ (hostWithRoom st hc roomId roomCreatedOk iters).1 := by
  refine ⟨rfl, by decide, ?_⟩
  intro st hc roomId roomCreatedOk iters g
  cases roomCreatedOk with
  | false => simp [hostWithRoom]
  | true =>
    intro hmem
    rcases List.mem_append.1 hmem with h3 | h3
    · rcases List.mem_append.1 h3 with h2 | h2
      · rcases List.mem_append.1 h2 with h1 | h1
        · simp at h1
        · exact storedGuest_notin_hostLoop _ _ _ _ _ _ h1
      · exact storedGuest_notin_kickConnected _ _ _ h2
    · simp at h3

/-- Claim C2: a guest session whose first inbound message is not GuestAuth
is closed with a policy-violation status and returns with the guest
registry untouched: the handler's result is exactly one policy-violation
close of the guest connection and the unchanged server state. -/
theorem c2_non_guestauth_first_message_rejected
    (st : WsState) (roomId : RoomId) (gc : ConnId) (gid : GuestID)
    (authMsg : Msg) (guestJoinedOk : Bool) (iters : List (Bool × ReadResult))
    (hc : ConnId) (hhost : st.hosts.load roomId = some hc)
    (hne : authMsg.type ≠ MsgType.GuestAuth) :
    join st roomId gc gid (.ok authMsg) guestJoinedOk iters
      = ([Event.closed gc .StatusPolicyViolation
            ("Expected GuestAuth message. Got " ++ authMsg.type.str)], st) := by
  simp [join, hhost, hne]

theorem c2_witness :
    join ⟨[("R", 0)], []⟩ "R" 1 7 (ReadResult.ok (msgIceCandidate 0 "x"))
        true []
      = ([Event.closed 1 CloseStatus.StatusPolicyViolation
            ("Expected GuestAuth message. Got "
              ++ (msgIceCandidate 0 "x").type.str)],
         ⟨[("R", 0)], []⟩) :=
  c2_non_guestauth_first_message_rejected _ _ _ _ _ _ _ 0 (by decide) (by decide)

/-- Claim C3: the claim says a rate-limiter denial in the host receive loop
closes the host connection with a policy-violation status and exits the
loop.  In src/signaling/websocketSignalingServer.go lines 179-181 the
denial branch is empty, so the handler neither closes nor exits: on a
denied iteration it still reads and relays the next message.  The second
conjunct shows the repository's other copy of the handler (part_001 lines
184-187) implementing exactly the claimed behaviour, marking the empty
branch as a slip. -/
theorem c3_host_limiter_denial_has_no_effect :
    hostLoop ⟨[], [(2, 9)]⟩ 0 [] ⟨5, 20⟩
        [⟨false, ReadResult.ok (msgIceCandidate 2 "a")⟩]
      = ([Event.wrote 9 (msgIceCandidate 2 "a")], [], ⟨5, 20⟩) ∧
    hostLoopAlt ⟨[], [(2, 9)]⟩ 0 [] ⟨5, 20⟩
        [⟨false, ReadResult.ok (msgIceCandidate 2 "a")⟩]
      = ([Event.closed 0 CloseStatus.StatusPolicyViolation "rate limit"],
         [], ⟨5, 20⟩) := by
  constructor <;> rfl

/-- Claim C4: the claim says an IceCandidate received from a guest with
server-assigned id G is relayed to the host tagged with G regardless of the
GuestId the guest wrote.  In src/signaling/websocketSignalingServer.go line
126 the guest's message is forwarded verbatim (WriteMsg(hConn, msg)): here
the session's server-assigned id is 7 but the relayed message carries the
guest-chosen id 2.  The last conjunct shows the repository's other copy
(part_001 line 130) re-tagging with the server-assigned id, and messages.go
documents GuestId as ignored on the guest-to-server leg, marking the
verbatim forward as a slip. -/
theorem c4_guest_candidate_relayed_with_guest_chosen_id :
    (join ⟨[("R", 0)], []⟩ "R" 1 7 (ReadResult.ok (MsgGuestAuth "u" "p")) true
        [(true, ReadResult.ok (msgIceCandidate 2 "a"))]).1
      = [Event.wrote 0 (msgGuestJoined 7 "u" "p"), Event.storedGuest 7,
         Event.wrote 0 (msgIceCandidate 2 "a"),
         Event.wrote 0 (msgGuestDisconnected 7), Event.deletedGuest 7] ∧
    (msgIceCandidate 2 "a").guestId ≠ 7 ∧
    joinLoopAlt 0 1 7 [(true, ReadResult.ok (msgIceCandidate 2 "a"))]
      = [Event.wrote 0 (msgIceCandidate 7 "a")] := by
  refine ⟨rfl, by decide, rfl⟩

/-- Claim C7: the claim says any transport error on a read is fatal to the
owning session task, including the host signaling client's receive loop.
In part_000 lines 83-87 a ReadMsg error that is not
context.DeadlineExceeded (which includes disconnects and any other
non-timeout transport failure) is logged as an unmarshalling error and the
loop CONTINUES: here, after such an error, the loop still processes the
next message.  Only a DeadlineExceeded error terminates the loop (second
conjunct).  The spec's error taxonomy is the intent; classifying every
non-timeout error as an unmarshalling error is the slip. -/
theorem c7_listen_continues_after_read_error :
    Listen ([] : Registry GuestID IceConnM) 0
        [ClientRead.readErr, ClientRead.ok (msgIceCandidate 5 "a") true]
      = ([], [ClientEvent.loggedUnmarshalError, ClientEvent.candidateDropped 5]) ∧
    Listen ([] : Registry GuestID IceConnM) 0 [ClientRead.timeoutErr]
      = ([], [ClientEvent.exitedLoop]) := by
  constructor <;> rfl

/-- Claim C8 counterexample: the claim says that after a host session ends
its RoomId is deleted from the registry.  A host session whose RoomCreated
write fails ends (closing the host connection) before the deferred
`s.hosts.Delete(roomId)` is ever registered, so the allocated RoomId
"R1CDEF" is still registered after the session has ended. -/
theorem c8_counterexample_roomid_left_registered :
    (host ⟨[], []⟩ 0 ["R1CDEF"] false []).map
        (fun r => r.2.hosts.load "R1CDEF") = some (some 0) := by
  rfl

/-- Claim C5 counterexample: the claim says each guest recorded as
connected receives exactly one KickGuest with reason "host offline".  The
connected-guest list is not deduplicated: a host that sends HostAuth twice
for guest 7 (both finding the guest registered) records it twice, and the
teardown then issues TWO KickGuest messages to guest 7's connection;
moreover the actual reason string is "Host is offline.", not
"host offline". -/
theorem c5_counterexample_duplicate_kick :
    countEv (Event.wrote 3 (MsgKickGuest 7 "Host is offline."))
        (hostWithRoom ⟨[], [(7, 3)]⟩ 0 "R" true
          [⟨true, ReadResult.ok (MsgHostAuth 7 "u" "p")⟩,
           ⟨true, ReadResult.ok (MsgHostAuth 7 "u" "p")⟩]).1 = 2 ∧
    (MsgKickGuest 7 "Host is offline.").reason ≠ "host offline" := by
  constructor
  · rfl
  · decide

/-- Claim C10: on GuestJoined the client stores the guest's entry with a
nil *ice.Conn; handling a GuestDisconnected for that guest before the dial
completes removes the entry without issuing any Close on the nil
connection (the Close is guarded by a non-nil check, part_000 lines
164-166); and only a successful dial completion replaces the entry with an
established connection handle. -/
theorem c10_nil_conn_guard (st : Registry GuestID IceConnM)
    (fresh fresh2 : Nat) (g : GuestID) (u p : String) (c : ConnId) :
    (listenStep st fresh (.ok (msgGuestJoined g u p) true)).1.load g
        = some ⟨none, fresh⟩ ∧
    (listenStep (listenStep st fresh (.ok (msgGuestJoined g u p) true)).1
        fresh2 (.ok (msgGuestDisconnected g) true)).2.1
      = [ClientEvent.removedGuest g] ∧
    (listenStep (listenStep st fresh (.ok (msgGuestJoined g u p) true)).1
        fresh2 (.ok (msgGuestDisconnected g) true)).1.load g = none ∧
    (dialComplete (listenStep st fresh (.ok (msgGuestJoined g u p) true)).1
        g fresh (some c)).1.load g = some ⟨some c, fresh⟩ := by
  have h1 : (listenStep st fresh (.ok (msgGuestJoined g u p) true)).1
      = st.store g ⟨none, fresh⟩ := rfl
  refine ⟨?_, ?_, ?_, ?_⟩
  · rw [h1]; exact Registry.load_store_self _ _ _
  · rw [h1]
    simp [listenStep, msgGuestDisconnected, Registry.load_store_self]
  · rw [h1]
    simp [listenStep, msgGuestDisconnected, Registry.load_store_self,
      Registry.load_delete_self]
  · rw [h1]
    simp [dialComplete, Registry.load_store_self]

/-- Claim C8 (amended): GenerateUniqueRoomID returns only ids satisfying
the supplied uniqueness predicate (not registered at the time of the
check); an id allocated while another session still holds r1 is distinct
from r1; and a host session whose RoomCreated write succeeded deletes its
RoomId from the registry on teardown, making it available (unique) again.
The unamended claim fails when the RoomCreated write fails, see the
counterexample. -/
theorem c8_roomid_unique_and_freed_on_clean_end
    (st : WsState) (hc : ConnId) (draws draws2 : List RoomId)
    (r1 r2 : RoomId) (iters : List HostIter)
    (h1 : GenerateUniqueRoomID st.isUnique draws = some r1)
    (h2 : GenerateUniqueRoomID
        (WsState.isUnique { st with hosts := st.hosts.store r1 hc }) draws2
      = some r2) :
    st.isUnique r1 = true ∧ r1 ≠ r2 ∧
    (hostWithRoom st hc r1 true iters).2.hosts.load r1 = none ∧
    (hostWithRoom st hc r1 true iters).2.isUnique r1 = true := by
  have hu1 := GenerateUniqueRoomID_spec _ _ _ h1
  have hu2 := GenerateUniqueRoomID_spec _ _ _ h2
  have h3 : ((st.hosts.store r1 hc).delete r1).load r1 = none :=
    Registry.load_delete_self _ _
  refine ⟨hu1, ?_, ?_, ?_⟩
  · intro he
    rw [← he] at hu2
    simp [WsState.isUnique, Registry.load_store_self] at hu2
  · exact h3
  · show (((st.hosts.store r1 hc).delete r1).load r1).isNone = true
    rw [h3]
    rfl

theorem c8_witness :
    WsState.isUnique ⟨[], []⟩ "AAAAAA" = true ∧
    ("AAAAAA" : RoomId) ≠ "BBBBBB" ∧
    (hostWithRoom ⟨[], []⟩ 0 "AAAAAA" true []).2.hosts.load "AAAAAA" = none ∧
    (hostWithRoom ⟨[], []⟩ 0 "AAAAAA" true []).2.isUnique "AAAAAA" = true :=
  c8_roomid_unique_and_freed_on_clean_end ⟨[], []⟩ 0 ["AAAAAA"]
    ["AAAAAA", "BBBBBB"] "AAAAAA" "BBBBBB" [] (by decide) (by decide)

/-! The host receive loop keeps the limiter at 5 per connected guest. -/

theorem hostLoop_limiter_inv (st : WsState) (hc : ConnId) :
    ∀ (iters : List HostIter) (connected : List GuestID) (lim : Limiter),
      ((hostLoop st hc connected lim iters).2.1 = connected ∧
        (hostLoop st hc connected lim iters).2.2 = lim) ∨
      (connected.length < (hostLoop st hc connected lim iters).2.1.length ∧
        (hostLoop st hc connected lim iters).2.2
          = ⟨(hostLoop st hc connected lim iters).2.1.length * 5,
             (hostLoop st hc connected lim iters).2.1.length * 5 * 2⟩) := by
  intro iters
  induction iters with
  | nil => intro connected lim; left; exact ⟨rfl, rfl⟩
  | cons it rest ih =>
    intro connected lim
    obtain ⟨allow, r⟩ := it
    cases r with
    | err => left; exact ⟨rfl, rfl⟩
    | ok m =>
      by_cases hA : m.type = MsgType.HostAuth
      · cases hl : st.guests.load m.guestId with
        | none =>
          have hred : hostLoop st hc connected lim (⟨allow, .ok m⟩ :: rest)
              = hostLoop st hc connected lim rest := by
            simp [hostLoop, hA, hl]
          rw [hred]
          exact ih connected lim
        | some gc =>
          have hred : (hostLoop st hc connected lim (⟨allow, .ok m⟩ :: rest)).2
              = (hostLoop st hc (connected ++ [m.guestId])
                  ⟨(connected ++ [m.guestId]).length * 5,
                   (connected ++ [m.guestId]).length * 5 * 2⟩ rest).2 := by
            simp [hostLoop, hA, hl]
          rcases ih (connected ++ [m.guestId])
              ⟨(connected ++ [m.guestId]).length * 5,
               (connected ++ [m.guestId]).length * 5 * 2⟩ with
            ⟨hco, hlo⟩ | ⟨hlt, hlo⟩
          · right
            rw [hred, hco, hlo]
            simp
          · right
            rw [hred]
            refine ⟨?_, hlo⟩
            have : (connected ++ [m.guestId]).length = connected.length + 1 := by
              simp
            omega
      · by_cases hI : m.type = MsgType.IceCandidate
        · cases hl : st.guests.load m.guestId with
          | none =>
            have hred : hostLoop st hc connected lim (⟨allow, .ok m⟩ :: rest)
                = hostLoop st hc connected lim rest := by
              simp [hostLoop, hA, hI, hl]
            rw [hred]
            exact ih connected lim
          | some gc =>
            have hred : (hostLoop st hc connected lim (⟨allow, .ok m⟩ :: rest)).2
                = (hostLoop st hc connected lim rest).2 := by
              simp [hostLoop, hA, hI, hl]
            rw [hred]
            exact ih connected lim
        · have hred : hostLoop st hc connected lim (⟨allow, .ok m⟩ :: rest)
              = hostLoop st hc connected lim rest := by
            simp [hostLoop, hA, hI]
          rw [hred]
          exact ih connected lim

/-- Claim C6: starting from the handler's initial rate.NewLimiter(5, 20),
after the receive loop has processed successful HostAuth messages for K
distinct guests (K at least 1, each recorded in connectedGuests), the
limiter holds limit 5*K and burst 2*5*K: each successful HostAuth calls
SetLimit(len(connectedGuests)*5) and SetBurst(int(lim.Limit())*2). -/
theorem c6_rate_limit_scales_with_connected_guests
    (st : WsState) (hc : ConnId) (iters : List HostIter) (K : Nat)
    (hK : (hostLoop st hc [] ⟨5, 20⟩ iters).2.1.length = K)
    (hpos : 1 ≤ K)
    (_hnd : (hostLoop st hc [] ⟨5, 20⟩ iters).2.1.Nodup) :
    (hostLoop st hc [] ⟨5, 20⟩ iters).2.2 = ⟨5 * K, 2 * (5 * K)⟩ := by
  rcases hostLoop_limiter_inv st hc iters [] ⟨5, 20⟩ with ⟨hco, -⟩ | ⟨-, hlo⟩
  · rw [hco] at hK
    simp at hK
    omega
  · rw [hlo, hK]
    simp [Limiter.mk.injEq]
    omega

theorem c6_witness :
    (hostLoop ⟨[], [(1, 8), (2, 9)]⟩ 0 [] ⟨5, 20⟩
        [⟨true, ReadResult.ok (MsgHostAuth 1 "u" "p")⟩,
         ⟨true, ReadResult.ok (MsgHostAuth 2 "u" "p")⟩]).2.2
      = ⟨5 * 2, 2 * (5 * 2)⟩ :=
  c6_rate_limit_scales_with_connected_guests ⟨[], [(1, 8), (2, 9)]⟩ 0
    [⟨true, ReadResult.ok (MsgHostAuth 1 "u" "p")⟩,
     ⟨true, ReadResult.ok (MsgHostAuth 2 "u" "p")⟩] 2
    (by decide) (by decide) (by decide)

/-! The guest receive loop forwards only IceCandidate messages, so it never
writes a GuestDisconnected message. -/

theorem wrote_disconnect_notin_joinLoop (hc gc c : ConnId) (gid : GuestID)
    (iters : List (Bool × ReadResult)) :
    Event.wrote c (msgGuestDisconnected gid) ∉ joinLoop hc gc iters := by
  induction iters with
  | nil => simp [joinLoop]
  | cons it rest ih =>
    obtain ⟨allow, r⟩ := it
    cases allow with
    | false => simp [joinLoop]
    | true =>
      cases r with
      | err => simp [joinLoop]
      | ok m =>
        by_cases ht : m.type = MsgType.IceCandidate
        · intro hmem
          simp only [joinLoop, Bool.not_true, Bool.false_eq_true, if_false,
            ht, if_true, List.mem_cons] at hmem
          rcases hmem with heq | hmem2
          · obtain ⟨-, hm⟩ := Event.wrote.inj heq
            rw [← hm] at ht
            simp [msgGuestDisconnected] at ht
          · exact ih hmem2
        · simpa [joinLoop, ht] using ih

/-- Claim C9: for a guest session that was registered (first message
GuestAuth, GuestJoined relay delivered), the session's event trace
contains exactly one write of GuestDisconnected with the session's
GuestID to the host connection, and that write is the last message of the
trace, immediately followed only by the registry Delete of the GuestID:
the notification precedes the registry deletion and no later message
about that GuestID is produced by the session. -/
theorem c9_guest_disconnect_notification
    (st : WsState) (roomId : RoomId) (gc : ConnId) (gid : GuestID)
    (authMsg : Msg) (iters : List (Bool × ReadResult)) (hc : ConnId)
    (hhost : st.hosts.load roomId = some hc)
    (hauth : authMsg.type = MsgType.GuestAuth) :
    countEv (Event.wrote hc (msgGuestDisconnected gid))
        (join st roomId gc gid (.ok authMsg) true iters).1 = 1 ∧
    ∃ pre, (join st roomId gc gid (.ok authMsg) true iters).1
      = pre ++ [Event.wrote hc (msgGuestDisconnected gid),
                Event.deletedGuest gid] := by
  have hjoin : (join st roomId gc gid (.ok authMsg) true iters).1
      = (Event.wrote hc (msgGuestJoined gid authMsg.ufrag authMsg.pwd)
          :: Event.storedGuest gid
          :: joinLoop hc gc iters)
        ++ [Event.wrote hc (msgGuestDisconnected gid),
            Event.deletedGuest gid] := by
    simp [join, hhost, hauth]
  constructor
  · rw [hjoin, countEv_append, countEv_cons, countEv_cons,
      countEv_eq_zero_of_not_mem _ _
        (wrote_disconnect_notin_joinLoop hc gc hc gid iters),
      countEv_cons, countEv_cons, countEv_nil]
    have hne1 : Event.wrote hc (msgGuestJoined gid authMsg.ufrag authMsg.pwd)
        ≠ Event.wrote hc (msgGuestDisconnected gid) := by
      intro h
      obtain ⟨-, hm⟩ := Event.wrote.inj h
      have := congrArg Msg.type hm
      simp [msgGuestJoined, msgGuestDisconnected] at this
    simp [hne1]
  · exact ⟨_, hjoin⟩

theorem c9_witness :
    countEv (Event.wrote 0 (msgGuestDisconnected 7))
        (join ⟨[("R", 0)], []⟩ "R" 1 7
          (ReadResult.ok (MsgGuestAuth "u" "p")) true []).1 = 1 ∧
    ∃ pre, (join ⟨[("R", 0)], []⟩ "R" 1 7
        (ReadResult.ok (MsgGuestAuth "u" "p")) true []).1
      = pre ++ [Event.wrote 0 (msgGuestDisconnected 7),
                Event.deletedGuest 7] :=
  c9_guest_disconnect_notification ⟨[("R", 0)], []⟩ "R" 1 7
    (MsgGuestAuth "u" "p") [] 0 (by decide) (by decide)

/-! Lemmas about the host-offline teardown loop. -/

theorem kick_write_notin_kickConnected (st : WsState) (g : GuestID)
    (gc : ConnId) (l : List GuestID) (h : g ∉ l) :
    Event.wrote gc (MsgKickGuest g "Host is offline.") ∉ kickConnected st l := by
  induction l with
  | nil => simp [kickConnected]
  | cons g0 rest ih =>
    have hg0 : g ≠ g0 := fun he => h (he ▸ List.mem_cons_self g0 rest)
    have hrest : g ∉ rest := fun he => h (List.mem_cons_of_mem g0 he)
    cases hl : st.guests.load g0 with
    | none => simpa [kickConnected, hl] using ih hrest
    | some gc0 =>
      intro hmem
      simp only [kickConnected, hl, List.mem_cons] at hmem
      rcases hmem with heq | heq | hmem2
      · obtain ⟨-, hm⟩ := Event.wrote.inj heq
        have := congrArg Msg.guestId hm
        simp [MsgKickGuest] at this
        exact hg0 this
      · simp at heq
      · exact ih hrest hmem2

theorem close_notin_kickConnected (st : WsState) (gc : ConnId)
    (l : List GuestID) (h : ∀ g ∈ l, st.guests.load g ≠ some gc) :
    Event.closed gc CloseStatus.StatusGoingAway "Host is offline"
      ∉ kickConnected st l := by
  induction l with
  | nil => simp [kickConnected]
  | cons g0 rest ih =>
    have hrest : ∀ g ∈ rest, st.guests.load g ≠ some gc :=
      fun g hg => h g (List.mem_cons_of_mem g0 hg)
    cases hl : st.guests.load g0 with
    | none => simpa [kickConnected, hl] using ih hrest
    | some gc0 =>
      intro hmem
      simp only [kickConnected, hl, List.mem_cons] at hmem
      rcases hmem with heq | heq | hmem2
      · simp at heq
      · obtain ⟨hc0, -, -⟩ := Event.closed.inj heq
        rw [← hc0] at hl
        exact h g0 (List.mem_cons_self g0 rest) hl
      · exact ih hrest hmem2

theorem kickConnected_target (st : WsState) (l : List GuestID) (e : Event)
    (he : e ∈ kickConnected st l) :
    ∃ g ∈ l, ∃ gc, st.guests.load g = some gc ∧ eventTarget e = some gc := by
  induction l with
  | nil => simp [kickConnected] at he
  | cons g0 rest ih =>
    cases hl : st.guests.load g0 with
    | none =>
      rw [show kickConnected st (g0 :: rest) = kickConnected st rest from by
        simp [kickConnected, hl]] at he
      obtain ⟨g, hg, gc, hgc, ht⟩ := ih he
      exact ⟨g, List.mem_cons_of_mem _ hg, gc, hgc, ht⟩
    | some gc0 =>
      simp only [kickConnected, hl, List.mem_cons] at he
      rcases he with rfl | rfl | he2
      · exact ⟨g0, List.mem_cons_self _ _, gc0, hl, rfl⟩
      · exact ⟨g0, List.mem_cons_self _ _, gc0, hl, rfl⟩
      · obtain ⟨g, hg, gc, hgc, ht⟩ := ih he2
        exact ⟨g, List.mem_cons_of_mem _ hg, gc, hgc, ht⟩

theorem kick_counts (st : WsState) :
    ∀ l : List GuestID, l.Nodup →
      (∀ g1 ∈ l, ∀ g2 ∈ l, (st.guests.load g1).isSome = true →
          st.guests.load g1 = st.guests.load g2 → g1 = g2) →
      ∀ g ∈ l, ∀ gc, st.guests.load g = some gc →
        countEv (Event.wrote gc (MsgKickGuest g "Host is offline."))
          (kickConnected st l) = 1 ∧
        countEv (Event.closed gc CloseStatus.StatusGoingAway "Host is offline")
          (kickConnected st l) = 1 := by
  intro l
  induction l with
  | nil =>
    intro _ _ g hg
    simp at hg
  | cons g0 rest ih =>
    intro hnd hinj g hg gc hgc
    have hnd2 : rest.Nodup := (List.nodup_cons.1 hnd).2
    have hg0nr : g0 ∉ rest := (List.nodup_cons.1 hnd).1
    have hinj2 : ∀ g1 ∈ rest, ∀ g2 ∈ rest,
        (st.guests.load g1).isSome = true →
        st.guests.load g1 = st.guests.load g2 → g1 = g2 :=
      fun g1 h1 g2 h2 => hinj g1 (List.mem_cons_of_mem _ h1) g2
        (List.mem_cons_of_mem _ h2)
    rcases List.mem_cons.1 hg with rfl | hgr
    · have hshape : kickConnected st (g :: rest)
          = Event.wrote gc (MsgKickGuest g "Host is offline.")
            :: Event.closed gc CloseStatus.StatusGoingAway "Host is offline"
            :: kickConnected st rest := by
        simp [kickConnected, hgc]
      have hkz := kick_write_notin_kickConnected st g gc rest hg0nr
      have hcz : Event.closed gc CloseStatus.StatusGoingAway "Host is offline"
          ∉ kickConnected st rest := by
        apply close_notin_kickConnected
        intro g2 hg2 hl2
        have hsame : st.guests.load g2 = st.guests.load g := by
          rw [hl2, hgc]
        have : g2 = g := hinj g2 (List.mem_cons_of_mem _ hg2) g
          (List.mem_cons_self _ _) (by rw [hl2]; rfl) hsame
        exact hg0nr (this ▸ hg2)
      rw [hshape]
      constructor
      · rw [countEv_cons, countEv_cons, countEv_eq_zero_of_not_mem _ _ hkz]
        simp
      · rw [countEv_cons, countEv_cons, countEv_eq_zero_of_not_mem _ _ hcz]
        simp
    · have key := ih hnd2 hinj2 g hgr gc hgc
      cases hl0 : st.guests.load g0 with
      | none =>
        rw [show kickConnected st (g0 :: rest) = kickConnected st rest from by
          simp [kickConnected, hl0]]
        exact key
      | some gc0 =>
        have hgne : g ≠ g0 := fun he => hg0nr (he ▸ hgr)
        have hshape : kickConnected st (g0 :: rest)
            = Event.wrote gc0 (MsgKickGuest g0 "Host is offline.")
              :: Event.closed gc0 CloseStatus.StatusGoingAway "Host is offline"
              :: kickConnected st rest := by
          simp [kickConnected, hl0]
        have hwne : Event.wrote gc0 (MsgKickGuest g0 "Host is offline.")
            ≠ Event.wrote gc (MsgKickGuest g "Host is offline.") := by
          intro h
          obtain ⟨-, hm⟩ := Event.wrote.inj h
          have := congrArg Msg.guestId hm
          simp [MsgKickGuest] at this
          exact hgne this.symm
        have hcne : gc0 ≠ gc := by
          intro he
          have hsame : st.guests.load g0 = st.guests.load g := by
            rw [hl0, he, hgc]
          have : g0 = g := hinj g0 (List.mem_cons_self _ _) g
            (List.mem_cons_of_mem _ hgr) (by rw [hl0]; rfl) hsame
          exact hgne this.symm
        have hce : Event.closed gc0 CloseStatus.StatusGoingAway "Host is offline"
            ≠ Event.closed gc CloseStatus.StatusGoingAway "Host is offline" := by
          intro h
          obtain ⟨h1, -, -⟩ := Event.closed.inj h
          exact hcne h1
        rw [hshape]
        constructor
        · rw [countEv_cons, countEv_cons]
          simp [hwne, key.1]
        · rw [countEv_cons, countEv_cons]
          simp [hce, key.2]

theorem kick_targets_only_recorded (st : WsState) (l : List GuestID)
    (c : ConnId) (h : ∀ g ∈ l, st.guests.load g ≠ some c) :
    ∀ e ∈ kickConnected st l, eventTarget e ≠ some c := by
  intro e he htarget
  obtain ⟨g, hg, gc, hgc, ht⟩ := kickConnected_target st l e he
  rw [ht] at htarget
  have : gc = c := Option.some.inj htarget
  exact h g hg (this ▸ hgc)

/-- Claim C5 (amended): when a host session ends, the teardown walks the
recorded connected-guest list; each recorded guest whose connection is
still registered receives one KickGuest with reason "Host is offline."
(not "host offline") and one going-away close per occurrence in the list
-- exactly one when each guest was recorded once (the list is not
deduplicated, so a repeated successful HostAuth for the same guest yields
repeated kicks, see the counterexample) -- and no connection outside the
recorded set is written to or closed by the teardown. -/
theorem c5_teardown_kicks_each_recorded_guest_once
    (st : WsState) (connected : List GuestID)
    (hnd : connected.Nodup)
    (hinj : ∀ g1 ∈ connected, ∀ g2 ∈ connected,
        (st.guests.load g1).isSome = true →
        st.guests.load g1 = st.guests.load g2 → g1 = g2) :
    (∀ g ∈ connected, ∀ gc, st.guests.load g = some gc →
        countEv (Event.wrote gc (MsgKickGuest g "Host is offline."))
          (kickConnected st connected) = 1 ∧
        countEv (Event.closed gc CloseStatus.StatusGoingAway "Host is offline")
          (kickConnected st connected) = 1) ∧
    (∀ c : ConnId, (∀ g ∈ connected, st.guests.load g ≠ some c) →
        ∀ e ∈ kickConnected st connected, eventTarget e ≠ some c) :=
  ⟨kick_counts st connected hnd hinj,
   fun c hc2 => kick_targets_only_recorded st connected c hc2⟩

theorem c5_witness :
    (∀ g ∈ [7], ∀ gc,
        (WsState.guests ⟨[], [(7, 3), (8, 4)]⟩).load g = some gc →
        countEv (Event.wrote gc (MsgKickGuest g "Host is offline."))
          (kickConnected ⟨[], [(7, 3), (8, 4)]⟩ [7]) = 1 ∧
        countEv (Event.closed gc CloseStatus.StatusGoingAway "Host is offline")
          (kickConnected ⟨[], [(7, 3), (8, 4)]⟩ [7]) = 1) ∧
    (∀ c : ConnId,
        (∀ g ∈ [7], (WsState.guests ⟨[], [(7, 3), (8, 4)]⟩).load g ≠ some c) →
        ∀ e ∈ kickConnected ⟨[], [(7, 3), (8, 4)]⟩ [7],
          eventTarget e ≠ some c) :=
  c5_teardown_kicks_each_recorded_guest_once ⟨[], [(7, 3), (8, 4)]⟩ [7]
    (by decide) (by decide)

end QuicP2P
